import Mathlib

/-!
Verification of the `plot_mission` helper defined in
`docs/source/tutorials/Optimize/Tutorial_13_Plot_Mission.ipynb` of the
RCAIDE repository:

```python
def plot_mission(nexus):
    results   = nexus.results.base
    # Plot Aerodynamic Coefficients
    plot_aerodynamic_coefficients(results)
    # Drag Components
    plot_drag_components(results)
    # Plot Altitude, sfc, vehicle weight
    plot_altitude_sfc_weight(results)
    return
```

We shallow-embed the relevant fragment of Python semantics:

* Python objects live in a store mapping object identifiers to attribute
  tables; an attribute access either yields the identifier of the attribute
  value or fails (an `AttributeError`).
* The three plotting routines come from `RCAIDE.Library.Plots` and are not
  part of this excerpt; they are treated as opaque external functions that
  receive the current store and the identifier of their argument object and
  return a Python value or raise an exception, together with the store they
  leave behind (accounting for any mutation they perform).
* `plot_mission` is translated statement by statement; besides its result
  (returned value or propagated exception) and the final store, the
  embedding records the trace of external plotting calls it issues, each
  event carrying the routine invoked and the identifier of the object
  passed to it.
-/

/-- Identifier of a Python object (a reference). -/
abbrev ObjId := Nat

/-- The attribute table of a Python object: attribute name to the identifier
of the attribute's value. -/
abbrev PyObject := List (String × ObjId)

/-- The object store: the object with identifier `i` is the `i`-th entry. -/
abbrev Store := List PyObject

/-- Python attribute access `obj.name`: look the object up in the store and
then look the attribute up in its table; `Option.none` models the
`AttributeError` raised when the object has no such attribute. -/
def getattr (s : Store) (oid : ObjId) (name : String) : Option ObjId :=
  (s[oid]?).bind fun obj =>
    ((obj.find? fun p => p.1 == name).map fun p => p.2)

/-- Python values as far as this excerpt needs them: `None` (the value
returned by a bare `return`) or a reference to some object. -/
inductive PyVal where
  | NoneVal : PyVal
  | ObjVal : ObjId → PyVal
deriving DecidableEq

/-- Exceptions observable from `plot_mission`: the `AttributeError` from the
attribute chain `nexus.results.base`, or an exception `e` raised by one of
the external plotting routines and propagated unchanged. -/
inductive PyExn (ε : Type) where
  | attributeError : PyExn ε
  | raised : ε → PyExn ε
deriving DecidableEq

/-- The three plotting routines invoked by `plot_mission`. -/
inductive PlotRoutine where
  | aerodynamic_coefficients : PlotRoutine
  | drag_components : PlotRoutine
  | altitude_sfc_weight : PlotRoutine
deriving DecidableEq

/-- An external plotting routine: given the current store and the identifier
of the argument object it returns either a value or an exception, together
with the store after the call (any mutation it performs is its own). -/
abbrev ExtFun (ε : Type) := Store → ObjId → Except ε PyVal × Store

/-- The environment binding the three names imported from
`RCAIDE.Library.Plots`; their implementations are outside this excerpt, so
they are opaque parameters of the embedding. -/
structure PlotEnv (ε : Type) where
  plot_aerodynamic_coefficients : ExtFun ε
  plot_drag_components : ExtFun ε
  plot_altitude_sfc_weight : ExtFun ε

/-- One entry of the call trace: the routine invoked and the identifier of
the object passed as its argument. -/
abbrev CallEvent := PlotRoutine × ObjId

/-- Everything observable about one run of `plot_mission`: the returned
value or propagated exception, the final store, and the sequence of
external plotting calls issued. -/
structure PMOutcome (ε : Type) where
  result : Except (PyExn ε) PyVal
  store : Store
  trace : List CallEvent

/-- Statement-by-statement embedding of the notebook function
`plot_mission(nexus)`: evaluate `nexus.results.base` (propagating an
`AttributeError` if either access fails), then call the three plotting
routines in order on the resulting object, propagating the first exception
raised, and finally `return` (i.e. return `None`). -/
def plot_mission (env : PlotEnv ε) (s : Store) (nexus : ObjId) : PMOutcome ε :=
  match getattr s nexus "results" with
  | Option.none => { result := Except.error PyExn.attributeError, store := s, trace := [] }
  | Option.some rid =>
    match getattr s rid "base" with
    | Option.none => { result := Except.error PyExn.attributeError, store := s, trace := [] }
    | Option.some results =>
      match env.plot_aerodynamic_coefficients s results with
      | (Except.error e, s1) =>
        { result := Except.error (PyExn.raised e), store := s1,
          trace := [(PlotRoutine.aerodynamic_coefficients, results)] }
      | (Except.ok _, s1) =>
        match env.plot_drag_components s1 results with
        | (Except.error e, s2) =>
          { result := Except.error (PyExn.raised e), store := s2,
            trace := [(PlotRoutine.aerodynamic_coefficients, results),
                      (PlotRoutine.drag_components, results)] }
        | (Except.ok _, s2) =>
          match env.plot_altitude_sfc_weight s2 results with
          | (Except.error e, s3) =>
            { result := Except.error (PyExn.raised e), store := s3,
              trace := [(PlotRoutine.aerodynamic_coefficients, results),
                        (PlotRoutine.drag_components, results),
                        (PlotRoutine.altitude_sfc_weight, results)] }
          | (Except.ok _, s3) =>
            { result := Except.ok PyVal.NoneVal, store := s3,
              trace := [(PlotRoutine.aerodynamic_coefficients, results),
                        (PlotRoutine.drag_components, results),
                        (PlotRoutine.altitude_sfc_weight, results)] }

/-- The exception, if any, raised by the first failing of the three plotting
calls when run in order from store `s` on argument `results` (stores are
threaded from call to call exactly as in `plot_mission`). -/
def firstFailure (env : PlotEnv ε) (s : Store) (results : ObjId) : Option ε :=
  match env.plot_aerodynamic_coefficients s results with
  | (Except.error e, _) => Option.some e
  | (Except.ok _, s1) =>
    match env.plot_drag_components s1 results with
    | (Except.error e, _) => Option.some e
    | (Except.ok _, s2) =>
      match env.plot_altitude_sfc_weight s2 results with
      | (Except.error e, _) => Option.some e
      | (Except.ok _, _) => Option.none

/-- Specification-level description of what `plot_mission` returns, written
from the spec's words: no validation and no handler of its own, an
`AttributeError` exactly when the attribute chain fails, the first external
exception propagated unchanged, and otherwise `None`. -/
def plotMissionResultSpec (env : PlotEnv ε) (s : Store) (nexus : ObjId) :
    Except (PyExn ε) PyVal :=
  match getattr s nexus "results" with
  | Option.none => Except.error PyExn.attributeError
  | Option.some rid =>
    match getattr s rid "base" with
    | Option.none => Except.error PyExn.attributeError
    | Option.some results =>
      match firstFailure env s results with
      | Option.some e => Except.error (PyExn.raised e)
      | Option.none => Except.ok PyVal.NoneVal

/-- An external routine never raises: on every store and argument it
returns normally. -/
def NeverRaises (f : ExtFun ε) : Prop :=
  ∀ s o, ∃ v s', f s o = (Except.ok v, s')

/-- An external routine leaves the store untouched. -/
def PreservesStore (f : ExtFun ε) : Prop :=
  ∀ s o, (f s o).2 = s

/-! ### Concrete fixtures used by the witness theorems -/

/-- A store in which object 0 (the nexus) has a `results` attribute pointing
to object 1, whose `base` attribute points to object 2 (the results). -/
def wStore : Store := [[("results", 1)], [("base", 2)], []]

/-- As `wStore`, with a second nexus (object 3) whose `results` attribute is
the same object 1. -/
def wStoreShared : Store := [[("results", 1)], [("base", 2)], [], [("results", 1)]]

/-- Two nexus objects (0 and 3) with distinct `results` objects (1 and 4)
that share the same `base` object 2. -/
def wStoreTwo : Store :=
  [[("results", 1)], [("base", 2)], [], [("results", 4)], [("base", 2)]]

/-- A store whose single object 0 has no attributes at all. -/
def wStoreEmpty : Store := [[]]

/-- A plotting environment whose routines always succeed, return `None` and
leave the store untouched. -/
def wEnvOk : PlotEnv Nat :=
  { plot_aerodynamic_coefficients := fun s _ => (Except.ok PyVal.NoneVal, s)
    plot_drag_components := fun s _ => (Except.ok PyVal.NoneVal, s)
    plot_altitude_sfc_weight := fun s _ => (Except.ok PyVal.NoneVal, s) }

/-- Pointwise equal to `wEnvOk` but not syntactically identical. -/
def wEnvOk2 : PlotEnv Nat :=
  { plot_aerodynamic_coefficients := fun s _ => (Except.ok PyVal.NoneVal, id s)
    plot_drag_components := fun s _ => (Except.ok PyVal.NoneVal, id s)
    plot_altitude_sfc_weight := fun s _ => (Except.ok PyVal.NoneVal, id s) }

/-! ### Claim theorems -/

/-- C1: on every nexus whose attribute chain `nexus.results.base` succeeds
(yielding the results object `r`), a run of `plot_mission` in which each
plotting call returns normally invokes exactly the three plotting routines
`plot_aerodynamic_coefficients`, `plot_drag_components`,
`plot_altitude_sfc_weight`, each exactly once, in that fixed order, each
call receiving the same results object `r`. -/
theorem plot_mission_invokes_three_in_order (env : PlotEnv ε) (s : Store)
    (nexus rid r : ObjId)
    (h1 : getattr s nexus "results" = Option.some rid)
    (h2 : getattr s rid "base" = Option.some r)
    (hA : NeverRaises env.plot_aerodynamic_coefficients)
    (hB : NeverRaises env.plot_drag_components)
    (hC : NeverRaises env.plot_altitude_sfc_weight) :
    (plot_mission env s nexus).trace =
      [(PlotRoutine.aerodynamic_coefficients, r),
       (PlotRoutine.drag_components, r),
       (PlotRoutine.altitude_sfc_weight, r)] := by
  obtain ⟨v1, s1, e1⟩ := hA s r
  obtain ⟨v2, s2, e2⟩ := hB s1 r
  obtain ⟨v3, s3, e3⟩ := hC s2 r
  simp [plot_mission, h1, h2, e1, e2, e3]

theorem plot_mission_invokes_three_in_order_witness :
    (plot_mission wEnvOk wStore 0).trace =
      [(PlotRoutine.aerodynamic_coefficients, 2),
       (PlotRoutine.drag_components, 2),
       (PlotRoutine.altitude_sfc_weight, 2)] :=
  plot_mission_invokes_three_in_order wEnvOk wStore 0 1 2 rfl rfl
    (fun s _ => ⟨PyVal.NoneVal, s, rfl⟩)
    (fun s _ => ⟨PyVal.NoneVal, s, rfl⟩)
    (fun s _ => ⟨PyVal.NoneVal, s, rfl⟩)

/-- C2: `plot_mission` performs no validation and handles no exception of
its own: its result is exactly the specification-level propagation — an
`AttributeError` iff the attribute chain fails, otherwise the first
exception raised by the external plotting calls propagated unchanged,
otherwise `None`. -/
theorem plot_mission_result_propagates (env : PlotEnv ε) (s : Store)
    (nexus : ObjId) :
    (plot_mission env s nexus).result = plotMissionResultSpec env s nexus := by
  rcases hn : getattr s nexus "results" with _ | rid
  · simp [plot_mission, plotMissionResultSpec, hn]
  · rcases hb : getattr s rid "base" with _ | r
    · simp [plot_mission, plotMissionResultSpec, hn, hb]
    · rcases e1 : env.plot_aerodynamic_coefficients s r with ⟨r1, s1⟩
      rcases r1 with e | v1
      · simp [plot_mission, plotMissionResultSpec, firstFailure, hn, hb, e1]
      · rcases e2 : env.plot_drag_components s1 r with ⟨r2, s2⟩
        rcases r2 with e | v2
        · simp [plot_mission, plotMissionResultSpec, firstFailure, hn, hb, e1, e2]
        · rcases e3 : env.plot_altitude_sfc_weight s2 r with ⟨r3, s3⟩
          rcases r3 with e | v3 <;>
            simp [plot_mission, plotMissionResultSpec, firstFailure, hn, hb, e1, e2, e3]

/-- C3: `plot_mission` performs no assignment or mutation of its own: when
the three external routines leave the store untouched, the whole run leaves
the store untouched, so any change to the nexus or the results container
can only come from the external plotting routines. -/
theorem plot_mission_frame (env : PlotEnv ε) (s : Store) (nexus : ObjId)
    (hA : PreservesStore env.plot_aerodynamic_coefficients)
    (hB : PreservesStore env.plot_drag_components)
    (hC : PreservesStore env.plot_altitude_sfc_weight) :
    (plot_mission env s nexus).store = s := by
  rcases hn : getattr s nexus "results" with _ | rid
  · simp [plot_mission, hn]
  · rcases hb : getattr s rid "base" with _ | r
    · simp [plot_mission, hn, hb]
    · rcases e1 : env.plot_aerodynamic_coefficients s r with ⟨r1, s1⟩
      have hs1 : s1 = s := by have := hA s r; rw [e1] at this; exact this
      rw [hs1] at e1
      rcases r1 with e | v1
      · simp [plot_mission, hn, hb, e1]
      · rcases e2 : env.plot_drag_components s r with ⟨r2, s2⟩
        have hs2 : s2 = s := by have := hB s r; rw [e2] at this; exact this
        rw [hs2] at e2
        rcases r2 with e | v2
        · simp [plot_mission, hn, hb, e1, e2]
        · rcases e3 : env.plot_altitude_sfc_weight s r with ⟨r3, s3⟩
          have hs3 : s3 = s := by have := hC s r; rw [e3] at this; exact this
          rw [hs3] at e3
          rcases r3 with e | v3 <;>
            simp [plot_mission, hn, hb, e1, e2, e3]

theorem plot_mission_frame_witness :
    (plot_mission wEnvOk wStore 0).store = wStore :=
  plot_mission_frame wEnvOk wStore 0
    (fun _ _ => rfl) (fun _ _ => rfl) (fun _ _ => rfl)

/-- C4: `plot_mission` has no return value of consequence: whenever its body
succeeds, the value returned is `None` (the bare `return`). -/
theorem plot_mission_returns_NoneVal (env : PlotEnv ε) (s : Store)
    (nexus : ObjId) (v : PyVal)
    (h : (plot_mission env s nexus).result = Except.ok v) :
    v = PyVal.NoneVal := by
  rcases hn : getattr s nexus "results" with _ | rid
  · simp [plot_mission, hn] at h
  · rcases hb : getattr s rid "base" with _ | r
    · simp [plot_mission, hn, hb] at h
    · rcases e1 : env.plot_aerodynamic_coefficients s r with ⟨r1, s1⟩
      rcases r1 with e | v1
      · simp [plot_mission, hn, hb, e1] at h
      · rcases e2 : env.plot_drag_components s1 r with ⟨r2, s2⟩
        rcases r2 with e | v2
        · simp [plot_mission, hn, hb, e1, e2] at h
        · rcases e3 : env.plot_altitude_sfc_weight s2 r with ⟨r3, s3⟩
          rcases r3 with e | v3 <;>
            simp [plot_mission, hn, hb, e1, e2, e3] at h
          exact h.symm

theorem plot_mission_returns_NoneVal_witness :
    (plot_mission wEnvOk wStore 0).result = Except.ok PyVal.NoneVal ∧
      PyVal.NoneVal = PyVal.NoneVal :=
  ⟨rfl, plot_mission_returns_NoneVal wEnvOk wStore 0 PyVal.NoneVal rfl⟩

/-- C5: the results object plotted is loaded via the attribute path
`nexus.results.base`, and `results` is the only attribute of `nexus` the
function reads: two nexus objects with the same `results` attribute make
`plot_mission` behave identically (same result, same store, same calls). -/
theorem plot_mission_reads_only_results_attr (env : PlotEnv ε) (s : Store)
    (n1 n2 : ObjId)
    (h : getattr s n1 "results" = getattr s n2 "results") :
    plot_mission env s n1 = plot_mission env s n2 := by
  unfold plot_mission
  rw [h]

theorem plot_mission_reads_only_results_attr_witness :
    plot_mission wEnvOk wStoreShared 0 = plot_mission wEnvOk wStoreShared 3 :=
  plot_mission_reads_only_results_attr wEnvOk wStoreShared 0 3 rfl

/-- C6: `plot_mission` keeps no state of its own between calls: its whole
outcome is a function of its argument and the behavior of the three
external plotting routines, so two environments whose routines behave
pointwise identically yield identical runs. -/
theorem plot_mission_depends_only_on_env_behavior (env1 env2 : PlotEnv ε)
    (s : Store) (nexus : ObjId)
    (hA : ∀ st o, env1.plot_aerodynamic_coefficients st o =
      env2.plot_aerodynamic_coefficients st o)
    (hB : ∀ st o, env1.plot_drag_components st o =
      env2.plot_drag_components st o)
    (hC : ∀ st o, env1.plot_altitude_sfc_weight st o =
      env2.plot_altitude_sfc_weight st o) :
    plot_mission env1 s nexus = plot_mission env2 s nexus := by
  simp only [plot_mission, hA, hB, hC]

theorem plot_mission_depends_only_on_env_behavior_witness :
    plot_mission wEnvOk wStore 0 = plot_mission wEnvOk2 wStore 0 :=
  plot_mission_depends_only_on_env_behavior wEnvOk wEnvOk2 wStore 0
    (fun _ _ => rfl) (fun _ _ => rfl) (fun _ _ => rfl)

/-- C7: `plot_mission` is deterministic modulo its external calls: two nexus
objects whose `results.base` chains lead to the same results object give
rise to identical runs (same routines, same order, same argument object),
whatever the rest of the two nexus objects looks like. -/
theorem plot_mission_deterministic_in_base (env : PlotEnv ε) (s : Store)
    (n1 n2 a1 a2 r : ObjId)
    (h1 : getattr s n1 "results" = Option.some a1)
    (h2 : getattr s a1 "base" = Option.some r)
    (h3 : getattr s n2 "results" = Option.some a2)
    (h4 : getattr s a2 "base" = Option.some r) :
    plot_mission env s n1 = plot_mission env s n2 := by
  simp [plot_mission, h1, h2, h3, h4]

theorem plot_mission_deterministic_in_base_witness :
    plot_mission wEnvOk wStoreTwo 0 = plot_mission wEnvOk wStoreTwo 3 :=
  plot_mission_deterministic_in_base wEnvOk wStoreTwo 0 3 1 4 2
    rfl rfl rfl rfl

/-- C8: `plot_mission` has no loop and no recursion: on every run it issues
at most three external calls and invokes no plotting routine twice, so it
terminates whenever the attribute accesses and the external calls do (in
this embedding, unconditionally). -/
theorem plot_mission_call_bound (env : PlotEnv ε) (s : Store)
    (nexus : ObjId) :
    (plot_mission env s nexus).trace.length ≤ 3 ∧
      ((plot_mission env s nexus).trace.map Prod.fst).Nodup := by
  rcases hn : getattr s nexus "results" with _ | rid
  · simp [plot_mission, hn]
  · rcases hb : getattr s rid "base" with _ | r
    · simp [plot_mission, hn, hb]
    · rcases e1 : env.plot_aerodynamic_coefficients s r with ⟨r1, s1⟩
      rcases r1 with e | v1
      · refine ⟨?_, ?_⟩ <;> simp [plot_mission, hn, hb, e1]
      · rcases e2 : env.plot_drag_components s1 r with ⟨r2, s2⟩
        rcases r2 with e | v2
        · refine ⟨?_, ?_⟩ <;> simp [plot_mission, hn, hb, e1, e2]
        · rcases e3 : env.plot_altitude_sfc_weight s2 r with ⟨r3, s3⟩
          rcases r3 with e | v3 <;> refine ⟨?_, ?_⟩ <;>
            simp [plot_mission, hn, hb, e1, e2, e3]

/-- C9: if the nexus has no `results` attribute, or its `results` object
has no `base` attribute, `plot_mission` raises an `AttributeError` on its
first statement and no plotting routine is invoked: zero plots are
produced. -/
theorem plot_mission_attribute_error_no_plots (env : PlotEnv ε) (s : Store)
    (nexus : ObjId)
    (h : getattr s nexus "results" = Option.none ∨
      ∃ rid, getattr s nexus "results" = Option.some rid ∧
        getattr s rid "base" = Option.none) :
    (plot_mission env s nexus).result = Except.error PyExn.attributeError ∧
      (plot_mission env s nexus).trace = [] := by
  rcases h with h | ⟨rid, h1, h2⟩
  · refine ⟨?_, ?_⟩ <;> simp [plot_mission, h]
  · refine ⟨?_, ?_⟩ <;> simp [plot_mission, h1, h2]

theorem plot_mission_attribute_error_no_plots_witness :
    (plot_mission wEnvOk wStoreEmpty 0).result =
        Except.error PyExn.attributeError ∧
      (plot_mission wEnvOk wStoreEmpty 0).trace = [] :=
  plot_mission_attribute_error_no_plots wEnvOk wStoreEmpty 0 (Or.inl rfl)
